import Mathlib

/-!
Verification of the python-gvm connection/framing layer and version utilities.

The development shallowly embeds:
- `gvm/version.py` (strip_version, safe_version, check_version_equal), from source;
- `gvm/protocols/gmp/requests/_cert_bund_advisories.py` (get_cert_bund_advisory), from source;
- the GvmConnection / XmlReader layer, whose implementation module is not part of the
  excerpt (only its tests are): it is modelled from the specification document.
-/

namespace PythonGvm

/-! ## Version utilities (embedded from gvm/version.py) -/

/-- Embeds `strip_version` from gvm/version.py: strips exactly one leading
character v when the string is non-empty and starts with it, else returns
the string unchanged. -/
def strip_version (version : String) : String :=
  match version.data with
  | 'v' :: rest => String.mk rest
  | _ => version

/-- Character class of `re.sub('[^A-Za-z0-9.]+', '-', version)` in
`safe_version`: letters, digits and the dot are kept. -/
def isVersionChar (c : Char) : Bool :=
  c.isAlpha || c.isDigit || c == '.'

/-- Embeds the regex substitution `re.sub('[^A-Za-z0-9.]+', '-', version)`:
each maximal run of non-version characters is replaced by a single dash.
The boolean records whether the previous character was part of such a run. -/
def collapseAux : Bool → List Char → List Char
  | _, [] => []
  | inRun, c :: rest =>
    if isVersionChar c then c :: collapseAux false rest
    else if inRun then collapseAux true rest
    else '-' :: collapseAux true rest

/-- Embeds `safe_version` from gvm/version.py. The external
`packaging.version.Version` normalizer (a third-party library, not
repository code) is abstracted as a parameter returning `some normalized`
on success and `none` on `InvalidVersion`; the fallback branch
(replace spaces with dots, then the regex substitution) is embedded
concretely. -/
def safe_version (parseVer : String → Option String) (version : String) : String :=
  match parseVer version with
  | some normalized => normalized
  | none => String.mk (collapseAux false ((version.replace " " ".").data))

/-- Embeds `check_version_equal` from gvm/version.py: both arguments are
normalized through `safe_version` and compared for equality. -/
def check_version_equal (parseVer : String → Option String)
    (new_version old_version : String) : Bool :=
  safe_version parseVer old_version == safe_version parseVer new_version

/-! ## XML framer (GvmConnection / XmlReader layer)

The implementation module of GvmConnection and XmlReader is not part of the
source excerpt (only its unit tests are), so this layer is modelled from the
specification: an incremental character-level state machine with state
depth / sawRoot / buffer, fed chunk by chunk, reporting completion once
sawRoot is true and depth has returned to 0. -/

/-- Modelled from the spec: the scanning mode of the incremental tag scanner
of the XmlReader (gvm/connections.py, not in the excerpt). The spec requires
recognising open tags, close tags, self-closing tags, comments and CDATA
sections, so the scanner needs a mode recording where inside such a
construct the stream currently is. -/
inductive FramerMode where
  | text
  | seenLt
  | openTag
  | openTagSlash
  | closeTag
  | seenBang
  | seenBangDash
  | comment
  | commentDash
  | commentDash2
  | cdataMatch (n : Nat)
  | cdata
  | cdataEnd1
  | cdataEnd2
  | bangDecl
  deriving DecidableEq

/-- The delimiter opening a CDATA section, matched character by character
after the leading less-than and bang have been seen. -/
def cdataOpenChars : List Char := ['[', 'C', 'D', 'A', 'T', 'A', '[']

/-- Modelled from the spec: one character step of the XmlReader tag scanner
(gvm/connections.py, not in the excerpt). Returns the next mode, depth and
sawRoot flag. An open tag completed by a greater-than increments depth and
sets sawRoot; a self-closing tag sets sawRoot and leaves depth unchanged; a
close tag decrements depth (floored at 0, a stray close tag is tolerated);
comment and CDATA delimiters are recognised so markup inside them is never
counted. -/
def stepChar (m : FramerMode) (depth : Nat) (sawRoot : Bool) (c : Char) :
    FramerMode × Nat × Bool :=
  match m with
  | .text =>
    if c == '<' then (.seenLt, depth, sawRoot) else (.text, depth, sawRoot)
  | .seenLt =>
    if c == '/' then (.closeTag, depth, sawRoot)
    else if c == '!' then (.seenBang, depth, sawRoot)
    else if c == '>' then (.text, depth, sawRoot)
    else (.openTag, depth, sawRoot)
  | .openTag =>
    if c == '>' then (.text, depth + 1, true)
    else if c == '/' then (.openTagSlash, depth, sawRoot)
    else (.openTag, depth, sawRoot)
  | .openTagSlash =>
    if c == '>' then (.text, depth, true)
    else (.openTag, depth, sawRoot)
  | .closeTag =>
    if c == '>' then (.text, depth - 1, sawRoot)
    else (.closeTag, depth, sawRoot)
  | .seenBang =>
    if c == '-' then (.seenBangDash, depth, sawRoot)
    else if c == '[' then (.cdataMatch 1, depth, sawRoot)
    else if c == '>' then (.text, depth, sawRoot)
    else (.bangDecl, depth, sawRoot)
  | .seenBangDash =>
    if c == '-' then (.comment, depth, sawRoot)
    else if c == '>' then (.text, depth, sawRoot)
    else (.bangDecl, depth, sawRoot)
  | .comment =>
    if c == '-' then (.commentDash, depth, sawRoot) else (.comment, depth, sawRoot)
  | .commentDash =>
    if c == '-' then (.commentDash2, depth, sawRoot) else (.comment, depth, sawRoot)
  | .commentDash2 =>
    if c == '>' then (.text, depth, sawRoot)
    else if c == '-' then (.commentDash2, depth, sawRoot)
    else (.comment, depth, sawRoot)
  | .cdataMatch n =>
    if cdataOpenChars.get? n == some c then
      (if n == 6 then .cdata else .cdataMatch (n + 1), depth, sawRoot)
    else if c == '>' then (.text, depth, sawRoot)
    else (.bangDecl, depth, sawRoot)
  | .cdata =>
    if c == ']' then (.cdataEnd1, depth, sawRoot) else (.cdata, depth, sawRoot)
  | .cdataEnd1 =>
    if c == ']' then (.cdataEnd2, depth, sawRoot) else (.cdata, depth, sawRoot)
  | .cdataEnd2 =>
    if c == '>' then (.text, depth, sawRoot)
    else if c == ']' then (.cdataEnd2, depth, sawRoot)
    else (.cdata, depth, sawRoot)
  | .bangDecl =>
    if c == '>' then (.text, depth, sawRoot) else (.bangDecl, depth, sawRoot)

/-- Modelled from the spec: the XmlReader framer state
(gvm/connections.py, not in the excerpt): depth of unmatched open tags,
whether a root tag has been seen, whether the document has completed
(spec: completion is latched — bytes after completion are appended and
ignored by completion logic already satisfied), the scanner mode, and the
accumulated buffer. -/
structure XmlReader where
  depth : Nat
  sawRoot : Bool
  completed : Bool
  mode : FramerMode
  buffer : List Char
  deriving DecidableEq

/-- Modelled from the spec: `start_xml` resets the reader to depth 0,
sawRoot false, empty buffer. -/
def XmlReader.start_xml : XmlReader :=
  { depth := 0, sawRoot := false, completed := false, mode := .text, buffer := [] }

/-- Feed a single character: perform one scanner step, append the character
to the buffer, and latch completion once sawRoot holds with depth 0. -/
def feedChar (s : XmlReader) (c : Char) : XmlReader :=
  match stepChar s.mode s.depth s.sawRoot c with
  | (m, d, r) =>
    { depth := d, sawRoot := r, completed := s.completed || (r && d == 0),
      mode := m, buffer := s.buffer ++ [c] }

/-- Modelled from the spec: `feed` appends a chunk to the buffer and scans
the newly appended region, character by character. -/
def XmlReader.feed_xml (s : XmlReader) (chunk : List Char) : XmlReader :=
  chunk.foldl feedChar s

/-- Modelled from the spec: `is_end_xml` is true once sawRoot is true and
depth has returned to 0 (latched by `feedChar`). -/
def XmlReader.is_end_xml (s : XmlReader) : Bool := s.completed

/-- Feed each character of a byte sequence as its own one-byte chunk
(the byte-at-a-time run of the chunk-boundary-independence property). -/
def feedBytewise (s : XmlReader) (bs : List Char) : XmlReader :=
  bs.foldl (fun st c => st.feed_xml [c]) s

/-- The least number of bytes of `bs` after which a fresh reader, run with
the given feeding strategy, first reports completion; `none` when no prefix
of `bs` completes a document. -/
def firstCompleteLen (run : XmlReader → List Char → XmlReader) (bs : List Char) :
    Option Nat :=
  (List.range (bs.length + 1)).find?
    (fun k => (run XmlReader.start_xml (bs.take k)).is_end_xml)

/-! ## Connection (modelled from the spec) -/

/-- Modelled from the spec: the read-failure taxonomy of the connection
layer (gvm/connections.py, not in the excerpt): no established transport,
peer closed before a complete document, deadline exhausted. -/
inductive GvmReadError where
  | notConnected
  | connectionLost
  | timedOut
  deriving DecidableEq

/-- Modelled from the spec: the fixed human-readable message carried by
each read-failure kind. -/
def errorMessage : GvmReadError → String
  | .notConnected => "Connection was not established"
  | .connectionLost => "Remote closed the connection"
  | .timedOut => "Timeout while reading the response"

/-- Outcome of one `read()` call: a complete document, a classified error,
or `blocked` when the scripted transport has no further event (modelling a
transport that never returns — the loop has no other exit). -/
inductive ReadResult where
  | ok (doc : List Char)
  | error (e : GvmReadError)
  | blocked
  deriving DecidableEq

/-- Modelled from the spec: the receive loop of `read()`
(gvm/connections.py, not in the excerpt). The transport is a script of
receive events, each an elapsed duration together with `some chunk` for
data or `none` for EOF. Each iteration receives one event, advancing the
clock; EOF fails with connectionLost; otherwise the chunk is fed to the
framer; a complete document returns; an exhausted deadline fails with
timedOut (the deadline is the one computed at the start of `read()` —
receiving partial data never resets it, and with a zero timeout the check
fires even after the first chunk arrived); otherwise loop. -/
def readLoop (reader : XmlReader) (now deadline : Nat) :
    List (Nat × Option (List Char)) → ReadResult
  | [] => .blocked
  | (_, none) :: _ => .error .connectionLost
  | (delay, some chunk) :: rest =>
    if (reader.feed_xml chunk).is_end_xml then .ok (reader.feed_xml chunk).buffer
    else if deadline ≤ now + delay then .error .timedOut
    else readLoop (reader.feed_xml chunk) (now + delay) deadline rest

/-- Modelled from the spec: the default timeout constant DEFAULT_TIMEOUT
(gvm/connections.py, not in the excerpt); the spec fixes only that it is a
finite nonzero system default. -/
def DEFAULT_TIMEOUT : Nat := 60

/-- Modelled from the spec: connection state — the transport (absent until
a successful connect; here a script of receive events) and the timeout. -/
structure GvmConnection where
  _socket : Option (List (Nat × Option (List Char)))
  _timeout : Nat
  deriving DecidableEq

/-- Modelled from the spec: constructing a connection with an optional
timeout; the transport is absent and an absent/None timeout is normalized
to the system default. -/
def GvmConnection.init (timeout : Option Nat) : GvmConnection :=
  { _socket := none, _timeout := timeout.getD DEFAULT_TIMEOUT }

/-- A connection constructed with no arguments: the timeout parameter
defaults to None. -/
def GvmConnection.new : GvmConnection := GvmConnection.init none

/-- Outcome of `connect()`: the base type fails with a not-implemented
condition; transport-specific variants (out of scope) would connect. -/
inductive ConnectResult where
  | notImplemented
  | connected
  deriving DecidableEq

/-- Modelled from the spec: `connect()` on the base, unspecialized
connection type always fails with the not-implemented condition. -/
def GvmConnection.connect (_ : GvmConnection) : ConnectResult := .notImplemented

/-- Modelled from the spec: `read()` — requires the transport present (else
notConnected), initializes a fresh framer and computes the deadline once
from the timeout budget (clock starts at 0), then runs the receive loop. -/
def GvmConnection.read (c : GvmConnection) : ReadResult :=
  match c._socket with
  | none => .error .notConnected
  | some script => readLoop XmlReader.start_xml 0 (0 + c._timeout) script

/-! ## GMP request builder (embedded from _cert_bund_advisories.py) -/

/-- Modelled from the spec: the RequiredArgument error raised by request
builders (gvm/errors.py, not in the excerpt), carrying the reporting
function and the missing argument. -/
structure RequiredArgument where
  function : String
  argument : String
  deriving DecidableEq

/-- Modelled from the spec: the XmlCommand helper (gvm/xml.py, not in the
excerpt), as used by get_cert_bund_advisory: an element name together with
its attributes in insertion order. -/
structure XmlCommand where
  name : String
  attributes : List (String × String)
  deriving DecidableEq

/-- Modelled from the spec: constructing an XmlCommand with no attributes. -/
def XmlCommand.mkCommand (n : String) : XmlCommand := { name := n, attributes := [] }

/-- Modelled from the spec: `set_attribute` records the attribute. Each key
is set at most once by the embedded builder, so it is recorded by
appending. -/
def XmlCommand.set_attribute (cmd : XmlCommand) (k v : String) : XmlCommand :=
  { cmd with attributes := cmd.attributes ++ [(k, v)] }

/-- Truthiness of an EntityID argument (a Python str passed as cert_id):
an absent (None) or empty value is falsy. -/
def entityIdTruthy : Option String → Bool
  | none => false
  | some s => !s.isEmpty

/-- The `str(cert_id)` conversion; Python renders None as the string None,
but the builder only converts truthy values. -/
def entityIdStr : Option String → String
  | none => "None"
  | some s => s

/-- Embeds `CertBundAdvisories.get_cert_bund_advisory` from
gvm/protocols/gmp/requests/_cert_bund_advisories.py: a falsy cert_id
raises RequiredArgument; otherwise a get_info command is built with
info_id set to str(cert_id), type CERT_BUND_ADV, and details always 1. -/
def get_cert_bund_advisory (cert_id : Option String) :
    Except RequiredArgument XmlCommand :=
  if !entityIdTruthy cert_id then
    .error { function := "get_cert_bund_advisory", argument := "cert_id" }
  else
    .ok ((((XmlCommand.mkCommand "get_info").set_attribute "info_id"
      (entityIdStr cert_id)).set_attribute "type" "CERT_BUND_ADV").set_attribute
      "details" "1")

/-! ## Helper lemmas -/

/-- Feeding a concatenation equals feeding the two parts in sequence: the
framer state machine is chunk-boundary independent. -/
lemma feed_xml_append (s : XmlReader) (a b : List Char) :
    s.feed_xml (a ++ b) = (s.feed_xml a).feed_xml b :=
  List.foldl_append ..

/-- One character step preserves latched completion. -/
lemma feedChar_completed_mono (s : XmlReader) (c : Char) (h : s.completed = true) :
    (feedChar s c).completed = true := by
  unfold feedChar
  rcases hs : stepChar s.mode s.depth s.sawRoot c with ⟨m, d, r⟩
  simp [h]

/-- Feeding more bytes preserves latched completion. -/
lemma is_end_xml_mono (cs : List Char) : ∀ s : XmlReader,
    s.is_end_xml = true → (s.feed_xml cs).is_end_xml = true := by
  induction cs with
  | nil => intro s h; exact h
  | cons c rest ih =>
    intro s h
    have h1 : (feedChar s c).completed = true := feedChar_completed_mono s c h
    simpa [XmlReader.feed_xml] using ih (feedChar s c) h1

/-- Feeding byte by byte computes the same state as feeding one chunk. -/
lemma feedBytewise_eq_feed_xml (l : List Char) : ∀ s : XmlReader,
    feedBytewise s l = s.feed_xml l := by
  induction l with
  | nil => intro s; rfl
  | cons c rest ih =>
    intro s
    have : s.feed_xml [c] = feedChar s c := rfl
    simp only [feedBytewise, List.foldl_cons, XmlReader.feed_xml] at *
    rw [this]
    exact ih (feedChar s c)

/-- The receive loop, run against a script of data chunks followed by an
EOF event, ends with connectionLost whenever the chunks do not complete a
document and the deadline is never hit on the way. -/
lemma readLoop_eof (chunks : List (Nat × List Char)) (reader : XmlReader)
    (now deadline dEof : Nat) (tail : List (Nat × Option (List Char)))
    (hinc : (reader.feed_xml (chunks.map Prod.snd).flatten).is_end_xml = false)
    (hdl : ∀ j, j < chunks.length →
      now + ((chunks.take (j + 1)).map Prod.fst).sum < deadline) :
    readLoop reader now deadline
      (chunks.map (fun p => (p.1, some p.2)) ++ (dEof, none) :: tail)
      = .error .connectionLost := by
  induction chunks generalizing reader now with
  | nil => rfl
  | cons hd rest ih =>
    rcases hd with ⟨d, c⟩
    have hfeed :
        ((reader.feed_xml c).feed_xml (rest.map Prod.snd).flatten).is_end_xml = false := by
      simpa [feed_xml_append] using hinc
    have hni : ¬ (reader.feed_xml c).is_end_xml = true := by
      intro h
      have h2 := is_end_xml_mono ((rest.map Prod.snd).flatten) (reader.feed_xml c) h
      rw [hfeed] at h2
      exact Bool.false_ne_true h2
    have hd0 : now + d < deadline := by
      have h1 := hdl 0 (by simp)
      simpa using h1
    simp only [List.map_cons, List.cons_append, readLoop]
    rw [if_neg hni, if_neg (Nat.not_le.mpr hd0)]
    refine ih (reader.feed_xml c) (now + d) hfeed ?_
    intro j hj
    have h1 := hdl (j + 1) (by simpa using Nat.succ_lt_succ hj)
    simp only [List.take_succ_cons, List.map_cons, List.sum_cons] at h1
    omega

/-! ## Claim theorems -/

/-- C4: a connection constructed with no arguments and one constructed with
timeout None are in the same initial state: the transport is absent and the
timeout is the system default DEFAULT_TIMEOUT — an absent timeout is
normalized to the default, which is neither infinite (it is a finite Nat)
nor zero. -/
theorem connection_default_values :
    GvmConnection.new = GvmConnection.init none ∧
    GvmConnection.new._socket = none ∧
    GvmConnection.new._timeout = DEFAULT_TIMEOUT ∧
    (GvmConnection.init none)._socket = none ∧
    (GvmConnection.init none)._timeout = DEFAULT_TIMEOUT ∧
    DEFAULT_TIMEOUT ≠ 0 :=
  ⟨rfl, rfl, rfl, rfl, rfl, by decide⟩

/-- C5: connect() on the base, unspecialized connection type always fails
with the not-implemented condition, whatever the connection state. -/
theorem connect_base_not_implemented (c : GvmConnection) :
    c.connect = ConnectResult.notImplemented := rfl

/-- C6: read() on a connection whose transport is absent (no successful
connect has occurred, as after construction with any timeout) fails with
NotConnectedError: the missing-transport check precedes the receive loop. -/
theorem read_not_connected (timeout : Option Nat) :
    (GvmConnection.init timeout).read = ReadResult.error GvmReadError.notConnected := rfl

/-- C7: immediately after start_xml, before any bytes are fed, the
completion check is_end_xml returns false, on the reset state with depth 0,
sawRoot false and an empty buffer. -/
theorem is_end_xml_false_after_start :
    XmlReader.start_xml.is_end_xml = false ∧
    XmlReader.start_xml.depth = 0 ∧
    XmlReader.start_xml.sawRoot = false ∧
    XmlReader.start_xml.buffer = [] :=
  ⟨rfl, rfl, rfl, rfl⟩

/-- C3: for every byte sequence, feeding it to a fresh framer one byte at a
time and feeding it in a single chunk give the same behaviour: the prefix
length at which is_end_xml first becomes true is identical in both runs. -/
theorem framer_chunk_boundary_independence (bs : List Char) :
    firstCompleteLen feedBytewise bs = firstCompleteLen XmlReader.feed_xml bs := by
  have h : feedBytewise = XmlReader.feed_xml :=
    funext fun s => funext fun l => feedBytewise_eq_feed_xml l s
  rw [h]

/-- C1: read() on a connection constructed with timeout 0 whose transport
delivers the response in two chunks (first the incomplete prefix, then the
closing tag), with any delays, fails with TimeoutError carrying the message
shown: the deadline is computed once at the start of read() and re-derived
from that original deadline each iteration, so the first chunk does not
reset it and the zero-timeout check fires inside the loop after that chunk
arrived. -/
theorem read_zero_timeout_two_chunks (d1 d2 : Nat) :
    GvmConnection.read
      { GvmConnection.init (some 0) with
        _socket := some [(d1, some "<foo>xyz<bar></bar>".data),
                         (d2, some "</foo>".data)] }
      = ReadResult.error GvmReadError.timedOut ∧
    errorMessage GvmReadError.timedOut = "Timeout while reading the response" := by
  refine ⟨?_, rfl⟩
  show readLoop XmlReader.start_xml 0 (0 + 0) _ = _
  simp only [readLoop]
  rw [if_neg (by decide), if_pos (by omega)]

/-- C2: read() on a connection whose transport reports EOF before a
complete document has been assembled fails with ConnectionLostError
carrying the message shown, regardless of how much partial data was
buffered (any sequence of non-completing chunks received within the
deadline, then EOF); it never returns a zero-length or truncated success. -/
theorem read_eof_connection_lost (t dEof : Nat) (chunks : List (Nat × List Char))
    (tail : List (Nat × Option (List Char)))
    (hinc : (XmlReader.start_xml.feed_xml (chunks.map Prod.snd).flatten).is_end_xml
      = false)
    (hdl : ∀ j, j < chunks.length → ((chunks.take (j + 1)).map Prod.fst).sum < t) :
    GvmConnection.read
      { _socket := some (chunks.map (fun p => (p.1, some p.2)) ++ (dEof, none) :: tail),
        _timeout := t }
      = ReadResult.error GvmReadError.connectionLost ∧
    errorMessage GvmReadError.connectionLost = "Remote closed the connection" := by
  refine ⟨?_, rfl⟩
  show readLoop XmlReader.start_xml 0 (0 + t) _ = _
  refine readLoop_eof chunks XmlReader.start_xml 0 (0 + t) dEof tail hinc ?_
  intro j hj
  have h1 := hdl j hj
  omega

/-- Witness for C2: one partial chunk buffered within the default timeout,
then EOF, yields ConnectionLostError. -/
theorem read_eof_connection_lost_witness :
    GvmConnection.read
      { _socket := some [(1, some "<foo>".data), (0, none)],
        _timeout := DEFAULT_TIMEOUT }
      = ReadResult.error GvmReadError.connectionLost ∧
    errorMessage GvmReadError.connectionLost = "Remote closed the connection" :=
  read_eof_connection_lost DEFAULT_TIMEOUT 0 [(1, "<foo>".data)] []
    (by decide)
    (by
      intro j hj
      simp only [List.length_cons, List.length_nil] at hj
      have hj0 : j = 0 := by omega
      subst hj0
      decide)

/-- C8: get_cert_bund_advisory raises RequiredArgument exactly when cert_id
is falsy (absent or empty); for every truthy cert_id it returns, without
raising, a get_info command whose attributes are info_id = str(cert_id),
type CERT_BUND_ADV and details 1. -/
theorem get_cert_bund_advisory_spec (cert_id : Option String) :
    (entityIdTruthy cert_id = false →
      get_cert_bund_advisory cert_id
        = Except.error { function := "get_cert_bund_advisory", argument := "cert_id" }) ∧
    (∀ s, cert_id = some s → s ≠ "" →
      get_cert_bund_advisory cert_id
        = Except.ok
            { name := "get_info",
              attributes := [("info_id", s), ("type", "CERT_BUND_ADV"),
                             ("details", "1")] }) := by
  constructor
  · intro h
    simp [get_cert_bund_advisory, h]
  · intro s hs hne
    subst hs
    have ht : entityIdTruthy (some s) = true := by
      have he : s.isEmpty = false := by
        rcases hb : s.isEmpty with _ | _
        · rfl
        · exact absurd ((String.isEmpty_iff s).mp hb) hne
      simp [entityIdTruthy, he]
    simp [get_cert_bund_advisory, ht, XmlCommand.mkCommand, XmlCommand.set_attribute,
      entityIdStr]

/-- Witness for C8: a falsy cert_id raises RequiredArgument; a concrete
advisory id yields the get_info command with full details. -/
theorem get_cert_bund_advisory_witness :
    get_cert_bund_advisory none
      = Except.error { function := "get_cert_bund_advisory", argument := "cert_id" } ∧
    get_cert_bund_advisory (some "CB-K20-0001")
      = Except.ok
          { name := "get_info",
            attributes := [("info_id", "CB-K20-0001"), ("type", "CERT_BUND_ADV"),
                           ("details", "1")] } :=
  ⟨(get_cert_bund_advisory_spec none).1 rfl,
   (get_cert_bund_advisory_spec (some "CB-K20-0001")).2 "CB-K20-0001" rfl (by decide)⟩

/-- C9: strip_version removes exactly one leading character v: a string
starting with it is returned without its first character, every other
string (including the empty string) is returned unchanged, and on a string
with two leading such characters the function is not idempotent. -/
theorem strip_version_spec :
    (∀ (s : String) (rest : List Char),
      s.data = 'v' :: rest → strip_version s = String.mk rest) ∧
    (∀ s : String, s.data.head? ≠ some 'v' → strip_version s = s) ∧
    strip_version "vv1.2.3" = "v1.2.3" ∧
    strip_version (strip_version "vv1.2.3") ≠ strip_version "vv1.2.3" := by
  refine ⟨?_, ?_, by decide, by decide⟩
  · intro s rest h
    rcases s with ⟨data⟩
    simp only at h
    subst h
    rfl
  · intro s h
    rcases s with ⟨data⟩
    rcases data with _ | ⟨c, cs⟩
    · rfl
    · have hc : c ≠ 'v' := by simpa using h
      show strip_version ⟨c :: cs⟩ = ⟨c :: cs⟩
      unfold strip_version
      split
      · rename_i rest heq
        simp only at heq
        exact absurd (List.head_eq_of_cons_eq heq) hc
      · rfl

/-- Witness for C9: a leading v is dropped and a string with no leading v
is unchanged. -/
theorem strip_version_witness :
    strip_version "vabc" = String.mk ['a', 'b', 'c'] ∧
    strip_version "abc" = "abc" :=
  ⟨strip_version_spec.1 "vabc" ['a', 'b', 'c'] rfl,
   strip_version_spec.2.1 "abc" (by decide)⟩

/-- C10: check_version_equal is symmetric — for every normalizer supplied
for the external version parser and all version strings a and b, it returns
the same boolean on (a, b) and (b, a), because both arguments are
independently normalized through safe_version before the equality
comparison. -/
theorem check_version_equal_symm (parseVer : String → Option String) (a b : String) :
    check_version_equal parseVer a b = check_version_equal parseVer b a := by
  unfold check_version_equal
  by_cases h : safe_version parseVer a = safe_version parseVer b
  · rw [h]
  · have h2 : safe_version parseVer b ≠ safe_version parseVer a := fun hh => h hh.symm
    simp [h, h2]

end PythonGvm
